import Mathlib

/-!
# Verification of the A2KDA aurora scoring core (`app.js`)

A shallow embedding, in Lean 4, of the scoring/darkness/moon/grid logic of
`app.js` (the latest revision of the engine, integrating darkness, clouds and
moon).  JavaScript numbers are modelled as rationals `ℚ`; a JS value that may
be `null`/`undefined`/non-numeric is modelled as `Option ℚ`.  The JS coercion
`Number(x) || 0` collapses missing and non-numeric inputs to `0`, which the
model renders as `Option.getD 0`.  Debug/trace strings that carry formatted
numbers are elided; the darkness factor's note string is kept verbatim.
-/

namespace Aurora

/-- JS truncation toward zero, as used by the `%` remainder operator
(`Math.trunc` of the quotient). -/
def jsTrunc (q : ℚ) : ℤ := if 0 ≤ q then ⌊q⌋ else ⌈q⌉

/-- The JS `%` remainder on numbers: `a - b * trunc(a / b)`, so the result has
the sign of the dividend. -/
def jsMod (a b : ℚ) : ℚ := a - b * jsTrunc (a / b)

/-- Model of `Number(x) || 0`: a missing or non-numeric input (JS `NaN` after
`Number(...)`) collapses to `0`; a present numeric input is kept. -/
def numOr0 (x : Option ℚ) : ℚ := x.getD 0

/-! ## AuroraBrain (`app.js` lines 174–299) -/

/-- Model of `kpScore` (app.js line 175): clamp KP to `[0,9]`, scale to 0–60 points. -/
def kpScore (kp : Option ℚ) : ℚ :=
  let k := min 9 (max 0 (numOr0 kp))
  k / 9 * 60

/-- Model of `locationScore` (app.js line 180): clamp the distance to the oval to
`[0,1500]` km and award `30 * (1 - d/1500)` points. -/
def locationScore (distanceToOvalKm : Option ℚ) : ℚ :=
  let maxDist : ℚ := 1500
  let d := min maxDist (max 0 (numOr0 distanceToOvalKm))
  30 * (1 - d / maxDist)

/-- Model of `lightPollutionPenalty` (app.js line 186): `30 * lp` base penalty, relieved
by up to 70% as KP approaches 7. -/
def lightPollutionPenalty (lightPollution kp : Option ℚ) : ℚ :=
  let lp := min 1 (max 0 (numOr0 lightPollution))
  let basePenalty := 30 * lp
  let k := min 9 (max 0 (numOr0 kp))
  let kpReliefFactor := min 1 (k / 7)
  basePenalty * (1 - kpReliefFactor * 0.7)

/-- Model of `timeOfNightAdjustment` (app.js line 198): small bonus around local
midnight; `+3` in `[22,24) ∪ [0,2)`, `+1` in `[3,4] ∪ [20,21]`, else `0`.
A non-numeric hour contributes `0`. -/
def timeOfNightAdjustment (timeLocalHour : Option ℚ) : ℚ :=
  match timeLocalHour with
  | none => 0
  | some t =>
    let h := jsMod (jsMod t 24 + 24) 24
    if 22 ≤ h ∨ h < 2 then 3
    else if (3 ≤ h ∧ h ≤ 4) ∨ (20 ≤ h ∧ h ≤ 21) then 1
    else 0

/-- The inputs destructured by `computeBrain` (app.js line 208).
`geomagneticLatitude` is a pass-through field not used by the score and is
elided. -/
structure BrainInputs where
  kp : Option ℚ
  distanceToOvalKm : Option ℚ
  lightPollution : Option ℚ
  cloudCover : Option ℚ
  timeLocalHour : Option ℚ
deriving DecidableEq

/-- The numeric parts of the object returned by `computeBrain`
(the `debug` string array is elided). -/
structure BrainResult where
  score : ℚ
  kpScorePart : ℚ
  locationScorePart : ℚ
  lightPollutionPenaltyPart : ℚ
deriving DecidableEq

/-- Model of `computeBrain` (app.js lines 208–290): base score before moon and darkness.
`score = kpScore + locationScore - lightPollutionPenalty`, minus a cloud
penalty `25 * clamp01(cloudCover)` when cloud cover is a number, plus the
time-of-night adjustment, clamped to `[0,100]`. -/
def computeBrain (inputs : BrainInputs) : BrainResult :=
  let sKp := kpScore inputs.kp
  let sLoc := locationScore inputs.distanceToOvalKm
  let lpPenalty := lightPollutionPenalty inputs.lightPollution inputs.kp
  let score0 := sKp + sLoc - lpPenalty
  let score1 :=
    match inputs.cloudCover with
    | some cloudCover =>
      let cc := min 1 (max 0 cloudCover)
      score0 - 25 * cc
    | none => score0
  let timeAdj := timeOfNightAdjustment inputs.timeLocalHour
  let score2 := if timeAdj ≠ 0 then score1 + timeAdj else score1
  let score3 := max 0 (min 100 score2)
  { score := score3
    kpScorePart := sKp
    locationScorePart := sLoc
    lightPollutionPenaltyPart := lpPenalty }

/-! ## Solar darkness model (`app.js` lines 301–584) -/

/-- Model of `wrapHour` (app.js line 317): wrap an hour value into `[0,24)`. -/
def wrapHour (h : ℚ) : ℚ :=
  let v := jsMod h 24
  if v < 0 then v + 24 else v

/-- Model of `isHourBetween` (app.js line 333): circular containment of hour `h` in the
half-open window `[start, stop)` after wrapping all three into `[0,24)`.
A `null` endpoint or a zero-width window yields `false`. -/
def isHourBetween (h : ℚ) (start stop : Option ℚ) : Bool :=
  match start, stop with
  | some s0, some e0 =>
    let hw := wrapHour h
    let s := wrapHour s0
    let e := wrapHour e0
    if s = e then false
    else if s < e then decide (s ≤ hw ∧ hw < e)
    else decide (s ≤ hw ∨ hw < e)
  | _, _ => false

/-- The record returned by `computeDarknessInfo` / `buildDarknessFromLiveTimes`
(the `date` and `source` bookkeeping fields are elided). -/
structure DarknessInfo where
  sunrise : Option ℚ
  sunset : Option ℚ
  astroDawn : Option ℚ
  astroDusk : Option ℚ
  hasDay : Bool
  alwaysDaylight : Bool
  alwaysNight : Bool
  hasAstronomicalNight : Bool
  neverDark : Bool
  alwaysAstronomicalDark : Bool
  isDaylightNow : Bool
  isDarkNow : Bool
deriving DecidableEq

/-- Outcome of `hourAngleForAltitude` (app.js line 372): either a concrete hour
angle in degrees, or the sun is always above / always below the threshold. -/
inductive HourAngleOutcome where
  | found (Hdeg : ℚ)
  | alwaysAbove
  | alwaysBelow
deriving DecidableEq

/-- Model of `hourAngleForAltitude` (app.js line 372) branch structure.  The
trigonometric prefix (`cos H` from day-of-year, declination and latitude, and
`H = acos(cosH)` in degrees) is irrational; the model takes the computed
`cosH` together with the arc-cosine value `Hdeg` as oracle inputs, and keeps
the three-way branch on `cosH` exactly as in the source. -/
def hourAngleForAltitude (cosH Hdeg : ℚ) : HourAngleOutcome :=
  if cosH < -1 then .alwaysAbove
  else if cosH > 1 then .alwaysBelow
  else .found Hdeg

/-- Model of `computeDarknessInfo` (app.js lines 356–463), downstream of the solar
trigonometry: `cosHSun`/`HSunDeg` are the threshold value and hour angle at
altitude `-0.833°`, `cosHAstro`/`HAstroDeg` at `-18°`; `solarNoon` is the
estimated local solar noon hour, `hourNow` the current local clock hour.
Each field mirrors the per-branch assignments of the source. -/
def computeDarknessInfo (cosHSun HSunDeg cosHAstro HAstroDeg solarNoon hourNow : ℚ) :
    DarknessInfo :=
  let sun0 := hourAngleForAltitude cosHSun HSunDeg
  let astro := hourAngleForAltitude cosHAstro HAstroDeg
  let sunrise := match sun0 with
    | .found H => some (wrapHour (solarNoon - H / 15))
    | _ => none
  let sunset := match sun0 with
    | .found H => some (wrapHour (solarNoon + H / 15))
    | _ => none
  let hasDay := match sun0 with
    | .found _ => true
    | _ => false
  let alwaysDaylight := match sun0 with
    | .alwaysAbove => true
    | _ => false
  let alwaysNight := match sun0 with
    | .alwaysBelow => true
    | _ => false
  let astroDawn := match astro with
    | .found H => some (wrapHour (solarNoon - H / 15))
    | _ => none
  let astroDusk := match astro with
    | .found H => some (wrapHour (solarNoon + H / 15))
    | _ => none
  let hasAstronomicalNight := match astro with
    | .found _ => true
    | _ => false
  let neverDark := match astro with
    | .alwaysAbove => true
    | _ => false
  let alwaysAstronomicalDark := match astro with
    | .alwaysBelow => true
    | _ => false
  let isDaylightNow :=
    if hasDay then isHourBetween hourNow sunrise sunset
    else if alwaysDaylight then true
    else false
  let isDarkNow :=
    if alwaysAstronomicalDark then true
    else if hasAstronomicalNight then isHourBetween hourNow astroDusk astroDawn
    else false
  { sunrise, sunset, astroDawn, astroDusk,
    hasDay, alwaysDaylight, alwaysNight,
    hasAstronomicalNight, neverDark, alwaysAstronomicalDark,
    isDaylightNow, isDarkNow }

/-- Model of `buildDarknessFromLiveTimes` (app.js lines 465–500), after the ISO-string
to local-hour conversions (`isoToLocalHour` yields `null` for a missing or
unparseable timestamp, modelled as `none`).  Returns `none` when either
astronomical-twilight hour is missing. -/
def buildDarknessFromLiveTimes (sunrise sunset astroDawn astroDusk : Option ℚ)
    (hourNow : ℚ) : Option DarknessInfo :=
  match astroDawn, astroDusk with
  | some dawn, some dusk =>
    let hasDay := sunrise.isSome && sunset.isSome
    some
      { sunrise, sunset, astroDawn := some dawn, astroDusk := some dusk,
        hasDay,
        alwaysDaylight := false, alwaysNight := false,
        hasAstronomicalNight := true,
        neverDark := false, alwaysAstronomicalDark := false,
        isDaylightNow := hasDay && isHourBetween hourNow sunrise sunset,
        isDarkNow := isHourBetween hourNow (some dusk) (some dawn) }
  | _, _ => none

/-- Model of `computeDarknessFactorAndNote` (app.js lines 503–584): darkness scale
factor and explanatory note, first matching branch wins. -/
def computeDarknessFactorAndNote (darkness : Option DarknessInfo) : ℚ × String :=
  match darkness with
  | none =>
    (1, "Darkness model unavailable – leaving the score unchanged for day/night.")
  | some d =>
    if d.alwaysAstronomicalDark || (d.alwaysNight && !d.neverDark) then
      (1, "No darkness penalty – the sky is effectively dark throughout this date at your latitude.")
    else if d.neverDark then
      (0.5, "Score scaled to 50% because the sky never reaches full astronomical darkness at this time of year.")
    else if d.hasAstronomicalNight then
      if d.isDarkNow then
        (1, "No darkness penalty – you are within the main dark window for your location.")
      else if d.isDaylightNow then
        (0.25, "Score scaled to 25% because it is currently daylight outside the main dark window.")
      else
        (0.6, "Score scaled to 60% because you are in twilight just outside the main dark window.")
    else if d.hasDay then
      if d.isDaylightNow then
        (0.3, "Score scaled to 30% because it is currently daylight.")
      else
        (0.6, "Score scaled to 60% based on partial darkness, without a clear astronomical-night window.")
    else
      (1, "Darkness model did not give clear day/night flags – leaving the score unchanged.")

/-! ## Moon model (`app.js` lines 588–655) -/

/-- The synodic month length in days (app.js line 590). -/
def synodicMonth : ℚ := 29.53058867

/-- Value of `Date.UTC(2000, 0, 6, 18, 14)`: the reference new moon 2000-01-06 18:14
UTC, in milliseconds since the Unix epoch (app.js line 592). -/
def knownNewMoon : ℚ := 947182440000

/-- The phase computation of `computeMoonInfo` (app.js lines 588–595): days
since the reference new moon, divided by the synodic month, wrapped into
`[0,1)` with `phase - Math.floor(phase)`.  The instant `tMs` is in
milliseconds since the Unix epoch.  (The `illumination` field applies
`Math.cos` and is irrational; the score pipeline takes illumination as an
input, so it is not modelled here.) -/
def moonPhase (tMs : ℚ) : ℚ :=
  let days := (tMs - knownNewMoon) / 86400000
  let phase := days / synodicMonth
  phase - ⌊phase⌋

/-- The phase-name banding of `computeMoonInfo` (app.js lines 600–617). -/
def moonPhaseName (phase : ℚ) : String :=
  if phase < 0.03 ∨ phase > 0.97 then "New Moon"
  else if phase < 0.22 then "Waxing crescent"
  else if phase < 0.28 then "First quarter"
  else if phase < 0.47 then "Waxing gibbous"
  else if phase < 0.53 then "Full Moon"
  else if phase < 0.72 then "Waning gibbous"
  else if phase < 0.78 then "Last quarter"
  else "Waning crescent"

/-- The slice of a moon record consumed by `computeMoonPenalty`: its
`illumination` fraction. -/
structure MoonCtx where
  illumination : ℚ
deriving DecidableEq

/-- Model of `computeMoonPenalty` (app.js lines 642–655): zero when moon or darkness
context is missing, when it is (always) daylight, or when the clamped
illumination is below `0.1`; otherwise `18 * illumination`. -/
def computeMoonPenalty (moon : Option MoonCtx) (darknessContext : Option DarknessInfo) : ℚ :=
  match moon, darknessContext with
  | some m, some d =>
    if d.alwaysDaylight || d.isDaylightNow then 0
    else
      let illum := min 1 (max 0 m.illumination)
      if illum < 0.1 then 0
      else 18 * illum
  | _, _ => 0

/-! ## Light-pollution grid lookup (`app.js` lines 83–109) -/

/-- The longitude normalization of `sampleGrid` (app.js line 96):
`((lon + 180) % 360 + 360) % 360 - 180`, with JS `%`. -/
def wrapLon (lon : ℚ) : ℚ :=
  jsMod (jsMod (lon + 180) 360 + 360) 360 - 180

/-- The metadata of the light-pollution grid (app.js lines 35–42; the `unit`
tag is elided). -/
structure GridMeta where
  lat_min : ℚ
  lon_min : ℚ
  resolution_deg : ℚ
  rows : ℤ
  cols : ℤ
deriving DecidableEq

/-- Model of `sampleGrid` (app.js lines 83–109): wrap the longitude, locate the grid
cell, and return its sky-brightness value; `none` models every `return null`
path (no grid, non-positive resolution, out-of-bounds row/column, missing or
`NaN` cell — a `NaN`/`null` cell is a `none` entry of `gridValues`). -/
def sampleGrid (gridMeta : Option GridMeta) (gridValues : Option (List (Option ℚ)))
    (lat lon : ℚ) : Option ℚ :=
  match gridMeta, gridValues with
  | some meta, some values =>
    if meta.resolution_deg ≤ 0 then none
    else
      let lonWrapped := wrapLon lon
      let row := ⌊(lat - meta.lat_min) / meta.resolution_deg⌋
      let col := ⌊(lonWrapped - meta.lon_min) / meta.resolution_deg⌋
      if row < 0 ∨ meta.rows ≤ row ∨ col < 0 ∨ meta.cols ≤ col then none
      else
        let idx := row * meta.cols + col
        match values.get? idx.toNat with
        | some (some raw) => some raw
        | _ => none
  | _, _ => none

/-! ## Single-instant score pipeline (`recomputeAurora`, app.js lines 1504–1590) -/

/-- The scoring tail of `recomputeAurora` (app.js lines 1504–1528): base brain
score at the current local hour, minus the moon penalty when positive, times
the darkness factor, clamped to `[0,100]`. -/
def recomputeScore (baseInputs : BrainInputs) (localHour : ℚ)
    (moon : Option MoonCtx) (darkness : Option DarknessInfo) : ℚ :=
  let baseResult := computeBrain { baseInputs with timeLocalHour := some localHour }
  let moonPenaltyNow :=
    match moon with
    | some m => computeMoonPenalty (some m) darkness
    | none => 0
  let scoreAfterMoon :=
    if 0 < moonPenaltyNow then max 0 (baseResult.score - moonPenaltyNow)
    else baseResult.score
  let darknessFactor :=
    match darkness with
    | some d => (computeDarknessFactorAndNote (some d)).1
    | none => 1
  max 0 (min 100 (scoreAfterMoon * darknessFactor))

/-- The verdict thresholds of `recomputeAurora` (app.js lines 1569–1577). -/
def verdictOf (adjustedScore : ℚ) : String :=
  if 65 ≤ adjustedScore then "yes"
  else if 35 ≤ adjustedScore then "maybe"
  else "no"

/-! ## Hourly chart (`renderHourlyChart`, app.js lines 1173–1444)

Local time is modelled as rational hours since the local midnight of the
current day, so a JS `Date` built by `buildDateForHour` with base day 0 is the
value `⌊h⌋ + round((h - ⌊h⌋) * 60) / 60` (`setHours` carries a 60-minute
overflow into the next hour, which the rational sum does as well), and adding
`3600000` ms is adding `1`. -/

/-- Model of `buildDateForHour` (app.js line 1251) relative to the midnight of the base
day: whole hours plus rounded minutes.  JS `Math.round` is `⌊x + 1/2⌋`,
matching Mathlib's `round`. -/
def hourToHM (hourValue : ℚ) : ℚ :=
  (⌊hourValue⌋ : ℚ) + (round ((hourValue - ⌊hourValue⌋) * 60) : ℚ) / 60

/-- The hour enumeration of `renderHourlyChart` (app.js lines 1250–1306),
astronomical-night branch: the `while (cursor <= dawnDate && safety < 48)`
loop, one recursion step per iteration. -/
def hourLoop : Nat → ℚ → ℚ → List ℚ
  | 0, _, _ => []
  | fuel + 1, cursor, dawn =>
    if cursor ≤ dawn then cursor :: hourLoop fuel (cursor + 1) dawn
    else []

/-- The `hourDates` sequence of `renderHourlyChart` (app.js lines 1250–1306),
as hours since the current day's local midnight; `nowT` is the current instant
in the same coordinates.  With a usable astronomical-night window the hours
run from the dusk instant rounded up to a whole hour through dawn; always-dark
darkness yields 12 hours from `⌊now⌋`; otherwise 8 hours from `⌊now⌋`. -/
def hourlyHourDates (darkness : DarknessInfo) (nowT : ℚ) : List ℚ :=
  match darkness.hasAstronomicalNight, darkness.astroDusk, darkness.astroDawn with
  | true, some dusk, some dawn =>
    let duskT := hourToHM dusk
    let dawnT0 := 24 * (⌊duskT / 24⌋ : ℚ) + hourToHM dawn
    let dawnT1 := if dawnT0 ≤ duskT then dawnT0 + 24 else dawnT0
    let duskT2 := if dawnT1 < nowT then duskT + 24 else duskT
    let dawnT2 := if dawnT1 < nowT then dawnT1 + 24 else dawnT1
    let startT := if (⌊duskT2⌋ : ℚ) < duskT2 then (⌊duskT2⌋ : ℚ) + 1 else duskT2
    hourLoop 48 startT dawnT2
  | _, _, _ =>
    if darkness.alwaysAstronomicalDark || darkness.alwaysNight then
      (List.range 12).map (fun i => (⌊nowT⌋ : ℚ) + i)
    else
      (List.range 8).map (fun i => (⌊nowT⌋ : ℚ) + i)

/-- One scored cell of the hourly chart (app.js lines 1313–1382). -/
structure HourEntry where
  localHour : ℚ
  scoreRounded : ℤ
  barHeight : ℤ
  cloudPct : Option ℤ
  moonPct : ℤ
  isDayHour : Bool
deriving DecidableEq

/-- The per-hour scoring body of `renderHourlyChart` (app.js lines 1313–1382):
per-hour cloud substitution (`mapCloudCoverForTime(hourDate) ?? base`,
abstracted as the lookup `cloudForHour`), base brain score at that hour,
per-hour daylight/darkness flags, moon penalty, darkness factor, rounding. -/
def hourEntry (darkness : DarknessInfo) (baseInputs : BrainInputs) (moon : MoonCtx)
    (cloudForHour : ℚ → Option ℚ) (hourDate : ℚ) : HourEntry :=
  let localHour := wrapHour hourDate
  let cloudCover :=
    match cloudForHour hourDate with
    | some c => some c
    | none => baseInputs.cloudCover
  let inputs : BrainInputs :=
    { baseInputs with cloudCover, timeLocalHour := some localHour }
  let baseResult := computeBrain inputs
  let isDayHour :=
    if darkness.hasDay && darkness.sunrise.isSome && darkness.sunset.isSome then
      isHourBetween localHour darkness.sunrise darkness.sunset
    else if darkness.alwaysDaylight then true
    else false
  let isDarkHour :=
    if darkness.alwaysAstronomicalDark then true
    else if darkness.hasAstronomicalNight && darkness.astroDusk.isSome
        && darkness.astroDawn.isSome then
      isHourBetween localHour darkness.astroDusk darkness.astroDawn
    else false
  let darknessForHour :=
    { darkness with isDaylightNow := isDayHour, isDarkNow := isDarkHour }
  let moonPenaltyHour := computeMoonPenalty (some moon) (some darknessForHour)
  let score1 :=
    if 0 < moonPenaltyHour then max 0 (min 100 (baseResult.score - moonPenaltyHour))
    else baseResult.score
  let factor := (computeDarknessFactorAndNote (some darknessForHour)).1
  let score2 := max 0 (min 100 (score1 * factor))
  let scoreRounded := round score2
  { localHour
    scoreRounded
    barHeight := max 8 (min 100 scoreRounded)
    cloudPct := inputs.cloudCover.map (fun c => round (c * 100))
    moonPct := round (moon.illumination * 100)
    isDayHour }

/-- JS falsiness of an optional number: `null`/`undefined` and `0` are falsy
(the guard `!state.lat || !state.lon` at app.js line 1241). -/
def jsFalsy (x : Option ℚ) : Bool :=
  match x with
  | none => true
  | some v => decide (v = 0)

/-- Model of `renderHourlyChart` (app.js lines 1173–1444), reduced to the data it
renders: `none` models the unscored placeholder rows (`addPlaceholderRows`,
cells showing `--`), produced when location or darkness is missing/falsy or
when the enumerated `hourDates` list is empty; otherwise the scored entries,
one per enumerated hour. -/
def renderHourlyChart (lat lon : Option ℚ) (darkness : Option DarknessInfo)
    (baseInputs : BrainInputs) (moon : MoonCtx) (cloudForHour : ℚ → Option ℚ)
    (nowT : ℚ) : Option (List HourEntry) :=
  if jsFalsy lat || jsFalsy lon || darkness.isNone then none
  else
    match darkness with
    | none => none
    | some dk =>
      let hourDates := hourlyHourDates dk nowT
      if hourDates.isEmpty then none
      else some (hourDates.map (hourEntry dk baseInputs moon cloudForHour))

/-! ## Shared concrete inputs for the scenario claims -/

/-- The scenario inputs of the spec's test vector: `kp=5`,
`distanceToOvalKm=200`, `lightPollution=0.2`, `cloudCoverFraction=0.1`
(the local hour is supplied separately to `recomputeScore`). -/
def scenarioInputs : BrainInputs :=
  { kp := some 5, distanceToOvalKm := some 200, lightPollution := some 0.2,
    cloudCover := some 0.1, timeLocalHour := none }

/-- A darkness context with a proper astronomical-night window that is
currently fully dark (`isDarkNow = true`). -/
def dkFullyDark : DarknessInfo :=
  { sunrise := some 8, sunset := some 16, astroDawn := some 6, astroDusk := some 18,
    hasDay := true, alwaysDaylight := false, alwaysNight := false,
    hasAstronomicalNight := true, neverDark := false, alwaysAstronomicalDark := false,
    isDaylightNow := false, isDarkNow := true }

/-- The same context but currently inside the coarse daylight window. -/
def dkDaylight : DarknessInfo :=
  { dkFullyDark with isDaylightNow := true, isDarkNow := false }

/-! ## Theorems -/

/-- C2 counterexample: with `distanceToOvalKm` missing, the position
contribution is the maximum 30 points (the code's `Number(d) || 0` default is
0 km), not the 0 points the claimed 1500 km default would give; and with
`lightPollution` missing the penalty is 0, not the 15 points the claimed 0.5
default would give at `kp = 0`. -/
theorem missing_inputs_not_spec_defaults :
    locationScore none = 30 ∧ locationScore none ≠ 0 ∧
    lightPollutionPenalty none (some 0) = 0 ∧
    lightPollutionPenalty (some 0.5) (some 0) = 15 := by
  norm_num [locationScore, lightPollutionPenalty, numOr0, min_def, max_def]

/-- C2 (amended): missing or non-numeric `kp`, `distanceToOvalKm` and
`lightPollution` default via `Number(x) || 0` to 0: KP contributes 0 points,
the position term contributes its maximum 30 points (distance 0 km), and the
light-pollution penalty is 0 for every KP. -/
theorem missing_inputs_defaults :
    kpScore none = 0 ∧ locationScore none = 30 ∧
    (∀ kp : Option ℚ, lightPollutionPenalty none kp = 0) := by
  refine ⟨by norm_num [kpScore, numOr0, min_def, max_def],
    by norm_num [locationScore, numOr0, min_def, max_def], fun kp => ?_⟩
  show (30 : ℚ) * min 1 (max 0 (numOr0 none)) * _ = 0
  norm_num [numOr0, min_def, max_def]

/-- C3: the final score produced by the `recomputeAurora` pipeline (base brain
score, moon penalty, darkness factor, final clamp) lies in `[0,100]` for every
input, including out-of-range values such as `kp = -5` or cloud cover `2.0`,
every moon illumination and every darkness context. -/
theorem recomputeScore_bounded (b : BrainInputs) (localHour : ℚ)
    (moon : Option MoonCtx) (darkness : Option DarknessInfo) :
    0 ≤ recomputeScore b localHour moon darkness ∧
    recomputeScore b localHour moon darkness ≤ 100 := by
  unfold recomputeScore
  exact ⟨le_max_left _ _, max_le (by norm_num) (min_le_left _ _)⟩

/-- C7: for a fixed `lightPollution > 0`, the light-pollution penalty is
strictly smaller at `kp = 9` than at `kp = 0`, and is monotonically
non-increasing in `kp` on `[0,9]`. -/
theorem lightPollutionPenalty_kp_relief (lp : ℚ) (hlp : 0 < lp) :
    lightPollutionPenalty (some lp) (some 9) < lightPollutionPenalty (some lp) (some 0) ∧
    ∀ k1 k2 : ℚ, 0 ≤ k1 → k1 ≤ k2 → k2 ≤ 9 →
      lightPollutionPenalty (some lp) (some k2) ≤ lightPollutionPenalty (some lp) (some k1) := by
  have hL0 : (0 : ℚ) < min 1 (max 0 lp) := lt_min one_pos (lt_max_of_lt_right hlp)
  constructor
  · show (30 : ℚ) * min 1 (max 0 lp) * (1 - min 1 (min 9 (max 0 (9:ℚ)) / 7) * 0.7)
        < 30 * min 1 (max 0 lp) * (1 - min 1 (min 9 (max 0 (0:ℚ)) / 7) * 0.7)
    have h9 : min 1 (min 9 (max 0 (9:ℚ)) / 7) = 1 := by
      norm_num [min_def, max_def]
    have h0 : min 1 (min 9 (max 0 (0:ℚ)) / 7) = 0 := by
      norm_num [min_def, max_def]
    rw [h9, h0]
    nlinarith [hL0]
  · intro k1 k2 h1 h12 h29
    show (30 : ℚ) * min 1 (max 0 lp) * (1 - min 1 (min 9 (max 0 k2) / 7) * 0.7)
        ≤ 30 * min 1 (max 0 lp) * (1 - min 1 (min 9 (max 0 k1) / 7) * 0.7)
    have e1 : min 9 (max 0 k1) = k1 := by
      rw [max_eq_right h1, min_eq_right (by linarith)]
    have e2 : min 9 (max 0 k2) = k2 := by
      rw [max_eq_right (by linarith), min_eq_right h29]
    rw [e1, e2]
    have hm : min 1 (k1 / 7) ≤ min 1 (k2 / 7) :=
      min_le_min le_rfl (by linarith)
    apply mul_le_mul_of_nonneg_left (by nlinarith [hm])
      (mul_nonneg (by norm_num) (le_min (by norm_num) (le_max_left 0 lp)))

/-- Witness for C7 at `lightPollution = 1/2`. -/
theorem lightPollutionPenalty_kp_relief_witness :
    (0 : ℚ) < 1/2 ∧
    (lightPollutionPenalty (some (1/2)) (some 9) < lightPollutionPenalty (some (1/2)) (some 0) ∧
     ∀ k1 k2 : ℚ, 0 ≤ k1 → k1 ≤ k2 → k2 ≤ 9 →
       lightPollutionPenalty (some (1/2)) (some k2) ≤ lightPollutionPenalty (some (1/2)) (some k1)) :=
  ⟨by norm_num, lightPollutionPenalty_kp_relief (1/2) (by norm_num)⟩

/-- C8: the moon phase is always in `[0,1)`, and at exactly one synodic month
(29.53058867 days) after the reference new moon (2000-01-06 18:14 UTC) the
phase is within `1e-3` of 0 (it is exactly 0 in the rational model). -/
theorem moonPhase_range_and_synodic_roundtrip :
    (∀ tMs : ℚ, 0 ≤ moonPhase tMs ∧ moonPhase tMs < 1) ∧
    |moonPhase (knownNewMoon + synodicMonth * 86400000) - 0| < 1/1000 := by
  constructor
  · intro t
    exact ⟨Int.fract_nonneg _, Int.fract_lt_one _⟩
  · have h : moonPhase (knownNewMoon + synodicMonth * 86400000) = 0 := by
      unfold moonPhase knownNewMoon synodicMonth
      norm_num
    rw [h]
    norm_num

/-- Bounds of the JS remainder for a non-negative dividend. -/
theorem jsMod_bounds_of_nonneg (a b : ℚ) (hb : 0 < b) (ha : 0 ≤ a) :
    0 ≤ jsMod a b ∧ jsMod a b < b := by
  have hq : 0 ≤ a / b := div_nonneg ha hb.le
  unfold jsMod jsTrunc
  rw [if_pos hq]
  constructor
  · have h1 : (⌊a / b⌋ : ℚ) ≤ a / b := Int.floor_le _
    have h2 : (⌊a / b⌋ : ℚ) * b ≤ a / b * b := mul_le_mul_of_nonneg_right h1 hb.le
    rw [div_mul_cancel₀ _ hb.ne'] at h2
    nlinarith
  · have h1 : a / b < ⌊a / b⌋ + 1 := Int.lt_floor_add_one _
    have h2 : a / b * b < ((⌊a / b⌋ : ℚ) + 1) * b := mul_lt_mul_of_pos_right h1 hb
    rw [div_mul_cancel₀ _ hb.ne'] at h2
    nlinarith

/-- Bounds of the JS remainder for a negative dividend. -/
theorem jsMod_bounds_of_neg (a b : ℚ) (hb : 0 < b) (ha : a < 0) :
    -b < jsMod a b ∧ jsMod a b ≤ 0 := by
  have hq : a / b < 0 := div_neg_of_neg_of_pos ha hb
  unfold jsMod jsTrunc
  rw [if_neg (not_le.2 hq)]
  constructor
  · have h1 : (⌈a / b⌉ : ℚ) < a / b + 1 := Int.ceil_lt_add_one _
    have h2 : (⌈a / b⌉ : ℚ) * b < (a / b + 1) * b := mul_lt_mul_of_pos_right h1 hb
    have h3 : (a / b + 1) * b = a + b := by
      field_simp
    rw [h3] at h2
    nlinarith
  · have h1 : a / b ≤ ⌈a / b⌉ := Int.le_ceil _
    have h2 : a / b * b ≤ (⌈a / b⌉ : ℚ) * b := mul_le_mul_of_nonneg_right h1 hb.le
    rw [div_mul_cancel₀ _ hb.ne'] at h2
    nlinarith

/-- The double-remainder normalization lands in `[0, 360)`. -/
theorem jsModNorm_bounds (a : ℚ) :
    0 ≤ jsMod (jsMod a 360 + 360) 360 ∧ jsMod (jsMod a 360 + 360) 360 < 360 := by
  have h360 : (0 : ℚ) < 360 := by norm_num
  have hr : 0 ≤ jsMod a 360 + 360 := by
    rcases le_or_lt 0 a with ha | ha
    · have := (jsMod_bounds_of_nonneg a 360 h360 ha).1
      linarith
    · have := (jsMod_bounds_of_neg a 360 h360 ha).1
      linarith
  exact jsMod_bounds_of_nonneg _ 360 h360 hr

/-- The double-remainder normalization differs from its input by a multiple
of 360. -/
theorem jsModNorm_sub (a : ℚ) :
    ∃ k : ℤ, a - jsMod (jsMod a 360 + 360) 360 = 360 * k := by
  refine ⟨jsTrunc (a / 360) + jsTrunc ((jsMod a 360 + 360) / 360) - 1, ?_⟩
  unfold jsMod
  push_cast
  ring

/-- The double-remainder normalization is invariant under adding 360. -/
theorem jsModNorm_add_360 (a : ℚ) :
    jsMod (jsMod (a + 360) 360 + 360) 360 = jsMod (jsMod a 360 + 360) 360 := by
  obtain ⟨k1, h1⟩ := jsModNorm_sub a
  obtain ⟨k2, h2⟩ := jsModNorm_sub (a + 360)
  obtain ⟨l1, u1⟩ := jsModNorm_bounds a
  obtain ⟨l2, u2⟩ := jsModNorm_bounds (a + 360)
  have key : jsMod (jsMod (a + 360) 360 + 360) 360 - jsMod (jsMod a 360 + 360) 360
      = 360 * (((1 + k1 - k2 : ℤ) : ℚ)) := by
    push_cast
    linarith
  have hlt : ((1 + k1 - k2 : ℤ) : ℚ) < 1 := by linarith
  have hgt : (-1 : ℚ) < ((1 + k1 - k2 : ℤ) : ℚ) := by linarith
  have hz : (1 + k1 - k2 : ℤ) = 0 := by
    have hlt' : (1 + k1 - k2 : ℤ) < 1 := by exact_mod_cast hlt
    have hgt' : (-1 : ℤ) < (1 + k1 - k2 : ℤ) := by exact_mod_cast hgt
    omega
  rw [hz] at key
  push_cast at key
  linarith

/-- The `sampleGrid` longitude normalization is invariant under adding 360. -/
theorem wrapLon_add_360 (lon : ℚ) : wrapLon (lon + 360) = wrapLon lon := by
  unfold wrapLon
  rw [show lon + 360 + 180 = lon + 180 + 360 by ring, jsModNorm_add_360]

/-- The `sampleGrid` longitude normalization is invariant under shifting by
any integer multiple of 360. -/
theorem wrapLon_add_int_mul (lon : ℚ) (k : ℤ) : wrapLon (lon + 360 * k) = wrapLon lon := by
  induction k using Int.induction_on with
  | hz => norm_num
  | hp n ih =>
    have e : lon + 360 * (((n : ℤ) + 1 : ℤ) : ℚ) = (lon + 360 * ((n : ℤ) : ℚ)) + 360 := by
      push_cast
      ring
    rw [e, wrapLon_add_360]
    exact_mod_cast ih
  | hn n ih =>
    have e : (lon + 360 * ((-(n : ℤ) - 1 : ℤ) : ℚ)) + 360 = lon + 360 * ((-(n : ℤ) : ℤ) : ℚ) := by
      push_cast
      ring
    have h2 := wrapLon_add_360 (lon + 360 * ((-(n : ℤ) - 1 : ℤ) : ℚ))
    rw [e] at h2
    have ih' : wrapLon (lon + 360 * ((-(n : ℤ) : ℤ) : ℚ)) = wrapLon lon := by
      exact_mod_cast ih
    calc wrapLon (lon + 360 * ((-(n : ℤ) - 1 : ℤ) : ℚ))
        = wrapLon (lon + 360 * ((-(n : ℤ) : ℤ) : ℚ)) := h2.symm
      _ = wrapLon lon := ih'

/-- C9: the grid lookup is invariant under shifting the longitude by any
multiple of 360 degrees, because `sampleGrid` first normalizes the longitude
into `[-180, 180)` via `((lon + 180) % 360 + 360) % 360 - 180`; in particular
sampling at `(lat, lon)` and `(lat, lon + 360)` gives the same result. -/
theorem sampleGrid_lon_periodic (gridMeta : Option GridMeta)
    (gridValues : Option (List (Option ℚ))) (lat lon : ℚ) (k : ℤ) :
    sampleGrid gridMeta gridValues lat (lon + 360 * k)
      = sampleGrid gridMeta gridValues lat lon := by
  cases gridMeta with
  | none => rfl
  | some meta =>
    cases gridValues with
    | none => rfl
    | some values =>
      unfold sampleGrid
      rw [wrapLon_add_int_mul]

/-- Exactly one of three flags is set. -/
def exactlyOne (a b c : Bool) : Bool :=
  (a && !b && !c) || (!a && b && !c) || (!a && !b && c)

/-- C5 counterexample: the live-times path, fed astronomical-twilight times
but no sunrise/sunset (a shape `isoToLocalHour` produces when those fields are
missing or unparseable), yields a `DarknessInfo` whose coarse flags `hasDay`,
`alwaysDaylight`, `alwaysNight` are all `false` — not exactly one. -/
theorem live_darkness_coarse_flags_not_exactly_one :
    ((buildDarknessFromLiveTimes none none (some 2) (some 20.5) 12).map
      (fun d => exactlyOne d.hasDay d.alwaysDaylight d.alwaysNight)) = some false := by
  simp [buildDarknessFromLiveTimes, exactlyOne]

/-- C5 (amended): every `DarknessInfo` from the internal solar model satisfies
both exactly-one invariants; every `DarknessInfo` from the live-times path
satisfies the fine-grained one, and satisfies the coarse one exactly when both
sunrise and sunset are present (`hasDay`) — otherwise all three coarse flags
are false. -/
theorem darkness_exactly_one_invariants :
    (∀ cosHSun HSunDeg cosHAstro HAstroDeg solarNoon hourNow : ℚ,
      exactlyOne (computeDarknessInfo cosHSun HSunDeg cosHAstro HAstroDeg solarNoon hourNow).hasDay
          (computeDarknessInfo cosHSun HSunDeg cosHAstro HAstroDeg solarNoon hourNow).alwaysDaylight
          (computeDarknessInfo cosHSun HSunDeg cosHAstro HAstroDeg solarNoon hourNow).alwaysNight
        = true ∧
      exactlyOne
          (computeDarknessInfo cosHSun HSunDeg cosHAstro HAstroDeg solarNoon hourNow).hasAstronomicalNight
          (computeDarknessInfo cosHSun HSunDeg cosHAstro HAstroDeg solarNoon hourNow).neverDark
          (computeDarknessInfo cosHSun HSunDeg cosHAstro HAstroDeg solarNoon hourNow).alwaysAstronomicalDark
        = true) ∧
    (∀ (sunrise sunset astroDawn astroDusk : Option ℚ) (hourNow : ℚ) (dk : DarknessInfo),
      buildDarknessFromLiveTimes sunrise sunset astroDawn astroDusk hourNow = some dk →
      exactlyOne dk.hasAstronomicalNight dk.neverDark dk.alwaysAstronomicalDark = true ∧
      exactlyOne dk.hasDay dk.alwaysDaylight dk.alwaysNight = dk.hasDay) := by
  constructor
  · intro c1 h1 c2 h2 noon now
    unfold computeDarknessInfo
    cases hourAngleForAltitude c1 h1 <;> cases hourAngleForAltitude c2 h2 <;>
      exact ⟨rfl, rfl⟩
  · intro sunrise sunset astroDawn astroDusk hourNow dk heq
    cases astroDawn with
    | none => exact absurd heq (by simp [buildDarknessFromLiveTimes])
    | some dawn =>
      cases astroDusk with
      | none => exact absurd heq (by simp [buildDarknessFromLiveTimes])
      | some dusk =>
        rw [buildDarknessFromLiveTimes, Option.some_inj] at heq
        subst heq
        refine ⟨rfl, ?_⟩
        cases h : sunrise.isSome && sunset.isSome <;> simp [exactlyOne, h]

/-- Witness for C5's live-times part at a concrete feed with all four times
present. -/
theorem darkness_exactly_one_invariants_witness :
    buildDarknessFromLiveTimes (some 6.5) (some 18) (some 2) (some 20.5) 12 = some
      { sunrise := some 6.5, sunset := some 18, astroDawn := some 2, astroDusk := some 20.5,
        hasDay := true, alwaysDaylight := false, alwaysNight := false,
        hasAstronomicalNight := true, neverDark := false, alwaysAstronomicalDark := false,
        isDaylightNow := true, isDarkNow := false } ∧
    exactlyOne true false false = true := by
  have hb : buildDarknessFromLiveTimes (some 6.5) (some 18) (some 2) (some 20.5) 12 = some
      { sunrise := some 6.5, sunset := some 18, astroDawn := some 2, astroDusk := some 20.5,
        hasDay := true, alwaysDaylight := false, alwaysNight := false,
        hasAstronomicalNight := true, neverDark := false, alwaysAstronomicalDark := false,
        isDaylightNow := true, isDarkNow := false } := by
    unfold buildDarknessFromLiveTimes
    have hday : isHourBetween 12 (some 6.5) (some 18) = true := by
      unfold isHourBetween wrapHour jsMod jsTrunc
      norm_num
    have hdark : isHourBetween 12 (some 20.5) (some 2) = true → False := by
      unfold isHourBetween wrapHour jsMod jsTrunc
      norm_num
    simp only [Option.isSome_some, Bool.and_self, Bool.true_and]
    rw [hday]
    congr 1
    cases hd : isHourBetween 12 (some 20.5) (some 2) with
    | false => rfl
    | true => exact absurd hd (by simpa using hdark)
  have h2 := (darkness_exactly_one_invariants.2 (some 6.5) (some 18) (some 2) (some 20.5) 12 _ hb).1
  exact ⟨hb, by simpa using h2⟩

/-- Zero-width circular windows contain nothing: helper for C10. -/
theorem isHourBetween_self (h s : ℚ) : isHourBetween h (some s) (some s) = false := by
  simp [isHourBetween]

/-- C10: circular hour-window containment treats a zero-width window as empty
(`isHourBetween h s s = false` for every `h` and `s`); consequently, when the
solar model's hour angle is 0 for a threshold — so the computed rise and set
hours coincide — no instant is classified as inside that window: with a
zero-width day window `isDaylightNow` is `false`, and with a zero-width
astronomical-night window `isDarkNow` is `false`. -/
theorem zero_width_window_contains_nothing :
    (∀ h s : ℚ, isHourBetween h (some s) (some s) = false) ∧
    (∀ cosHSun cosHAstro solarNoon hourNow : ℚ,
      -1 ≤ cosHSun → cosHSun ≤ 1 → -1 ≤ cosHAstro → cosHAstro ≤ 1 →
      (computeDarknessInfo cosHSun 0 cosHAstro 0 solarNoon hourNow).sunrise
          = (computeDarknessInfo cosHSun 0 cosHAstro 0 solarNoon hourNow).sunset ∧
      (computeDarknessInfo cosHSun 0 cosHAstro 0 solarNoon hourNow).astroDawn
          = (computeDarknessInfo cosHSun 0 cosHAstro 0 solarNoon hourNow).astroDusk ∧
      (computeDarknessInfo cosHSun 0 cosHAstro 0 solarNoon hourNow).isDaylightNow = false ∧
      (computeDarknessInfo cosHSun 0 cosHAstro 0 solarNoon hourNow).isDarkNow = false) := by
  refine ⟨isHourBetween_self, ?_⟩
  intro c1 c2 noon now hl1 hu1 hl2 hu2
  have hs : hourAngleForAltitude c1 0 = .found 0 := by
    unfold hourAngleForAltitude
    rw [if_neg (by linarith), if_neg (by linarith)]
  have ha : hourAngleForAltitude c2 0 = .found 0 := by
    unfold hourAngleForAltitude
    rw [if_neg (by linarith), if_neg (by linarith)]
  unfold computeDarknessInfo
  rw [hs, ha]
  have e : noon - 0 / 15 = noon + 0 / 15 := by norm_num
  simp only [e]
  exact ⟨trivial, trivial, isHourBetween_self _ _, isHourBetween_self _ _⟩

/-- Witness for C10's degenerate-window part at `cosH = 0` for both
thresholds. -/
theorem zero_width_window_contains_nothing_witness :
    ((-1 : ℚ) ≤ 0 ∧ (0 : ℚ) ≤ 1) ∧
    (computeDarknessInfo 0 0 0 0 12 3).isDaylightNow = false ∧
    (computeDarknessInfo 0 0 0 0 12 3).isDarkNow = false :=
  ⟨⟨by norm_num, by norm_num⟩,
    (zero_width_window_contains_nothing.2 0 0 12 3
      (by norm_num) (by norm_num) (by norm_num) (by norm_num)).2.2⟩

/-- Evaluation of the scenario pipeline in the fully-dark context: helper for
C1. -/
theorem recomputeScore_scenario_dark_eq :
    recomputeScore scenarioInputs 23 (some ⟨0⟩) (some dkFullyDark) = 341 / 6 := by
  norm_num [recomputeScore, computeBrain, scenarioInputs, dkFullyDark, kpScore,
    locationScore, lightPollutionPenalty, timeOfNightAdjustment, computeMoonPenalty,
    computeDarknessFactorAndNote, numOr0, jsMod, jsTrunc, min_def, max_def]

/-- C1 counterexample: the spec scenario (`kp=5`, `distanceToOvalKm=200`,
`lightPollution=0.2`, `cloudCoverFraction=0.1`, `localHour=23`, fully dark,
moon illumination 0) yields a final score of 341/6 ≈ 56.8, strictly below the
"Yes" band threshold 65. -/
theorem scenario_dark_score_below_yes_band :
    recomputeScore scenarioInputs 23 (some ⟨0⟩) (some dkFullyDark) < 65 := by
  rw [recomputeScore_scenario_dark_eq]
  norm_num

/-- C1 (amended): the scenario yields a final score of exactly 341/6 ≈ 56.8,
which lies in the "Maybe" band (`35 ≤ score < 65`), so the verdict is
"maybe", not "yes". -/
theorem scenario_dark_score_maybe_band :
    recomputeScore scenarioInputs 23 (some ⟨0⟩) (some dkFullyDark) = 341 / 6 ∧
    35 ≤ recomputeScore scenarioInputs 23 (some ⟨0⟩) (some dkFullyDark) ∧
    verdictOf (recomputeScore scenarioInputs 23 (some ⟨0⟩) (some dkFullyDark)) = "maybe" := by
  refine ⟨recomputeScore_scenario_dark_eq, ?_, ?_⟩
  · rw [recomputeScore_scenario_dark_eq]
    norm_num
  · rw [recomputeScore_scenario_dark_eq]
    norm_num [verdictOf]

/-- C4: the same scenario inputs, but with a darkness context that has an
astronomical-night window and is currently inside the coarse daylight window,
get the darkness factor 0.25 and a final score of 341/24 ≈ 14.2, which is at
most 35 (the "No" band). -/
theorem scenario_daylight_score_no_band :
    (computeDarknessFactorAndNote (some dkDaylight)).1 = 0.25 ∧
    recomputeScore scenarioInputs 23 (some ⟨0⟩) (some dkDaylight) = 341 / 24 ∧
    recomputeScore scenarioInputs 23 (some ⟨0⟩) (some dkDaylight) ≤ 35 := by
  have hf : (computeDarknessFactorAndNote (some dkDaylight)).1 = 0.25 := by
    norm_num [computeDarknessFactorAndNote, dkDaylight, dkFullyDark]
  have he : recomputeScore scenarioInputs 23 (some ⟨0⟩) (some dkDaylight) = 341 / 24 := by
    norm_num [recomputeScore, computeBrain, scenarioInputs, dkDaylight, dkFullyDark,
      kpScore, locationScore, lightPollutionPenalty, timeOfNightAdjustment,
      computeMoonPenalty, computeDarknessFactorAndNote, numOr0, jsMod, jsTrunc,
      min_def, max_def]
  refine ⟨hf, he, ?_⟩
  rw [he]
  norm_num

/-- A degenerate darkness input: an astronomical-night window from dusk 22:30
to dawn 22:36 (shorter than the gap to the next whole hour). -/
def dkDegenerate : DarknessInfo :=
  { sunrise := some 6.5, sunset := some 18, astroDawn := some 22.6, astroDusk := some 22.5,
    hasDay := true, alwaysDaylight := false, alwaysNight := false,
    hasAstronomicalNight := true, neverDark := false, alwaysAstronomicalDark := false,
    isDaylightNow := false, isDarkNow := false }

/-- A darkness input without an astronomical-night window (fallback branch of
the hour enumeration). -/
def dkNoAstro : DarknessInfo :=
  { dkFullyDark with hasAstronomicalNight := false, astroDawn := none, astroDusk := none }

/-- The sub-hour window of `dkDegenerate` enumerates no whole hours: dusk
22:30 rounds up to 23:00, which is already past dawn 22:36. -/
theorem hourlyHourDates_degenerate_empty : hourlyHourDates dkDegenerate 10 = [] := by
  norm_num [hourlyHourDates, dkDegenerate, hourToHM, hourLoop, round_eq]

/-- C6 counterexample: for a valid location (lat 60, lon 5) and the degenerate
darkness input `dkDegenerate`, the hourly chart produces no scored entries at
all (`none` models the unscored placeholder rows) — it does not synthesize a
fallback entry one hour ahead. -/
theorem hourly_chart_placeholder_not_fallback_entry :
    renderHourlyChart (some 60) (some 5) (some dkDegenerate) scenarioInputs ⟨0⟩
      (fun _ => none) 10 = none := by
  norm_num [renderHourlyChart, jsFalsy, hourlyHourDates_degenerate_empty]

/-- C6 (amended): the hour enumeration is non-empty whenever the darkness
input lacks a usable astronomical-night window (the 12-hour and 8-hour
fallback branches), and for a valid location the chart shows unscored
placeholder rows (`none`) exactly when the enumerated hour sequence is empty —
rather than synthesizing a fallback entry one hour ahead. -/
theorem hourly_chart_nonempty_or_placeholder :
    (∀ (dk : DarknessInfo) (nowT : ℚ),
      dk.hasAstronomicalNight = false ∨ dk.astroDusk = none ∨ dk.astroDawn = none →
      hourlyHourDates dk nowT ≠ []) ∧
    (∀ (lat lon : ℚ) (dk : DarknessInfo) (b : BrainInputs) (m : MoonCtx)
      (cf : ℚ → Option ℚ) (nowT : ℚ), lat ≠ 0 → lon ≠ 0 →
      (renderHourlyChart (some lat) (some lon) (some dk) b m cf nowT = none ↔
        hourlyHourDates dk nowT = [])) := by
  constructor
  · intro dk nowT hdeg
    unfold hourlyHourDates
    rcases hA : dk.hasAstronomicalNight with _ | _ <;>
      rcases hD : dk.astroDusk with _ | d <;>
        rcases hW : dk.astroDawn with _ | w <;>
          simp only [hA, hD, hW] at hdeg ⊢ <;>
          try (simp at hdeg)
    all_goals split <;> simp <;> exact ⟨0, by norm_num⟩
  · intro lat lon dk b m cf nowT hlat hlon
    unfold renderHourlyChart
    simp only [jsFalsy, hlat, hlon, decide_False, Bool.or_self, Bool.or_false,
      Option.isNone_some, Bool.false_or, if_false]
    rcases hL : hourlyHourDates dk nowT with _ | ⟨a, l⟩ <;> simp [hL]

/-- Witness for C6's amended statement, at the 8-hour fallback input
`dkNoAstro` and at the degenerate input `dkDegenerate` with lat 60, lon 5. -/
theorem hourly_chart_nonempty_or_placeholder_witness :
    (dkNoAstro.hasAstronomicalNight = false ∨ dkNoAstro.astroDusk = none ∨
      dkNoAstro.astroDawn = none) ∧
    hourlyHourDates dkNoAstro 10 ≠ [] ∧
    ((60 : ℚ) ≠ 0 ∧ (5 : ℚ) ≠ 0) ∧
    (renderHourlyChart (some 60) (some 5) (some dkDegenerate) scenarioInputs ⟨0⟩
        (fun _ => none) 10 = none ↔
      hourlyHourDates dkDegenerate 10 = []) :=
  ⟨Or.inl rfl,
   hourly_chart_nonempty_or_placeholder.1 dkNoAstro 10 (Or.inl rfl),
   ⟨by norm_num, by norm_num⟩,
   hourly_chart_nonempty_or_placeholder.2 60 5 dkDegenerate scenarioInputs ⟨0⟩
     (fun _ => none) 10 (by norm_num) (by norm_num)⟩

end Aurora
